import Mathlib

/-!
Verification development for the CourseWatch repository (src/main.py).

The Python source is shallowly embedded below.  Texts are modelled as
`List Char`; Python `Optional` values as `Option`; the fallible condition
evaluator as `Except String Bool`.  The HTML-to-visible-text step performed
by the external BeautifulSoup library is modelled as the input of
`extract_keyword_number`: our embedding starts at the two `re.sub`
normalisation passes (main.py lines 77-78) and covers the whole strategy
chain (lines 80-97).  Exception message details (`KeyError`, `ValueError`
renderings) are modelled as fixed strings carrying the same
`"Unexpected error: "` prefix the source produces.
-/

/-- Characters matched by the Python regex class `\s` (ASCII range),
used by the `\s*` parts of the extraction patterns. -/
def isPySpace (c : Char) : Bool :=
  c = ' ' || c = '\t' || c = '\n' || c = '\r' || c = '\x0b' || c = '\x0c'

/-- Characters matched by `[ \t]` in the first normalisation pass. -/
def isSpaceTab (c : Char) : Bool :=
  c = ' ' || c = '\t'

/-- Replace every maximal run of characters satisfying `p` by the single
character `rep`; `inRun` records whether the previous character was in a
run.  This is `re.sub(r"X+", rep, s)` for a character class `X`. -/
def collapseRuns (p : Char → Bool) (rep : Char) : Bool → List Char → List Char
  | _, [] => []
  | inRun, c :: rest =>
    if p c then
      (if inRun then [] else [rep]) ++ collapseRuns p rep true rest
    else
      c :: collapseRuns p rep false rest

/-- The two normalisation passes of `extract_keyword_number`
(main.py lines 77-78): `re.sub(r"[ \t]+", " ", text)` followed by
`re.sub(r"\n{2,}", "\n", text)` (collapsing a run of one newline to one
newline is the identity, so run-collapsing is exactly the second pass). -/
def normalizeText (text : List Char) : List Char :=
  collapseRuns (fun c => c = '\n') '\n' false
    (collapseRuns isSpaceTab ' ' false text)

/-- Value of a digit string, as Python `int` on a `[0-9]+` capture. -/
def digitsToNat (ds : List Char) : Nat :=
  ds.foldl (fun a c => a * 10 + (c.toNat - '0'.toNat)) 0

/-- Match `([0-9]+)` at the start of `s`: `none` when `s` does not start
with a digit, otherwise the value of the maximal leading digit run. -/
def readNum (s : List Char) : Option Nat :=
  match s with
  | [] => none
  | c :: _ => if c.isDigit then some (digitsToNat (s.takeWhile Char.isDigit)) else none

/-- Consume the maximal leading run of `\s` characters. -/
def skipWs (s : List Char) : List Char :=
  s.dropWhile isPySpace

/-- Case-insensitively match the literal `kw` as a prefix of `s`,
returning the remainder (the `re.IGNORECASE` literal match of the
escaped keyword). -/
def ciMatchSeg : List Char → List Char → Option (List Char)
  | [], s => some s
  | _ :: _, [] => none
  | k :: ks, c :: cs => if k.toLower = c.toLower then ciMatchSeg ks cs else none

/-- Match the tail `\s*[:#]?\s*([0-9]+)` of both extraction patterns at the
start of `s`, returning the captured number.  The character classes `\s`,
`[:#]` and `[0-9]` are pairwise disjoint, so the greedy backtracking
semantics of the Python pattern coincide with this deterministic scan. -/
def matchSepNum (s : List Char) : Option Nat :=
  let s1 := skipWs s
  let s2 :=
    match s1 with
    | c :: rest => if c = ':' || c = '#' then rest else s1
    | [] => []
  readNum (skipWs s2)

/-- Attempt the first pattern `rf"{kw}\s*[:#]?\s*([0-9]+)"` (with the
keyword `re.escape`d, hence literal) at the start of `s`. -/
def tryKw (kw : List Char) (s : List Char) : Option Nat :=
  match ciMatchSeg kw s with
  | none => none
  | some rest => matchSepNum rest

/-- Attempt the second, fixed pattern
`r"Availability\s*no\s*[:#]?\s*([0-9]+)"` at the start of `s`. -/
def tryAvail (s : List Char) : Option Nat :=
  match ciMatchSeg "Availability".toList s with
  | none => none
  | some r1 =>
    match ciMatchSeg "no".toList (skipWs r1) with
    | none => none
    | some r2 => matchSepNum r2

/-- All suffixes of `s` in the order `re.search` tries starting positions
(leftmost first, the empty suffix last). -/
def suffixes : List Char → List (List Char)
  | [] => [[]]
  | c :: rest => (c :: rest) :: suffixes rest

/-- `re.search` over a pattern-attempt function `f`: try `f` at every
starting position from the left, returning the first success. -/
def searchSuffixes (f : List Char → Option Nat) : List Char → Option Nat
  | [] => f []
  | c :: rest =>
    match f (c :: rest) with
    | some v => some v
    | none => searchSuffixes f rest

/-- Python `str.splitlines` restricted to the `\n`, `\r\n` and `\r`
terminators: the final fragment is kept only when nonempty. -/
def pySplitlinesGo (cur : List Char) : List Char → List (List Char)
  | [] => if cur.isEmpty then [] else [cur.reverse]
  | '\r' :: '\n' :: rest => cur.reverse :: pySplitlinesGo [] rest
  | '\n' :: rest => cur.reverse :: pySplitlinesGo [] rest
  | '\r' :: rest => cur.reverse :: pySplitlinesGo [] rest
  | c :: rest => pySplitlinesGo (c :: cur) rest

/-- Python `text.splitlines()`. -/
def pySplitlines (s : List Char) : List (List Char) :=
  pySplitlinesGo [] s

/-- Python `keyword.lower() in line.lower()`: case-insensitive substring
containment. -/
def ciContains (kw line : List Char) : Bool :=
  let k := kw.map Char.toLower
  (line.map Char.toLower).tails.any (fun t => k.isPrefixOf t)

/-- The final fallback of `extract_keyword_number` (main.py lines 91-95):
for each line, if it case-insensitively contains the keyword, return the
first digit run on it (`re.search(r"([0-9]+)", line)`); a keyword line
without digits is passed over. -/
def lineScan (kw : List Char) : List (List Char) → Option Nat
  | [] => none
  | line :: rest =>
    if ciContains kw line then
      match searchSuffixes readNum line with
      | some v => some v
      | none => lineScan kw rest
    else
      lineScan kw rest

/-- `extract_keyword_number` (main.py lines 68-97) on the visible text
produced by BeautifulSoup: normalise whitespace, then try the keyword
pattern, then the fixed `Availability no` pattern, then the line scan,
returning `none` when nothing matches. -/
def extract_keyword_number (text kw : List Char) : Option Nat :=
  let t := normalizeText text
  match searchSuffixes (tryKw kw) t with
  | some v => some v
  | none =>
    match searchSuffixes tryAvail t with
    | some v => some v
    | none => lineScan kw (pySplitlines t)

/-- `eval_condition` (main.py lines 100-113). -/
def eval_condition (value : Int) (op : String) (rhs : Int) : Except String Bool :=
  if op = ">" then .ok (decide (value > rhs))
  else if op = ">=" then .ok (decide (value ≥ rhs))
  else if op = "==" then .ok (decide (value = rhs))
  else if op = "!=" then .ok (decide (value ≠ rhs))
  else if op = "<" then .ok (decide (value < rhs))
  else if op = "<=" then .ok (decide (value ≤ rhs))
  else .error ("Unsupported op: " ++ op)

/-- The `extract` sub-object of a watch: keys `type` and `keyword`,
`none` meaning the key is absent. -/
structure ExtractCfg where
  etype : Option String
  keyword : Option String
deriving DecidableEq

/-- The `condition` sub-object of a watch.  `value` is `none` when the
key is absent, `some none` when present but `int(...)` conversion fails,
and `some (some n)` when present and convertible to the integer `n`. -/
structure CondCfg where
  op : Option String
  value : Option (Option Int)
deriving DecidableEq

/-- One entry of the `watches` list; `none` models an absent key. -/
structure WatchCfg where
  id : Option String
  label : Option String
  url : Option String
  enabled : Option Bool
  mode : Option String
  extract : Option ExtractCfg
  condition : Option CondCfg
deriving DecidableEq

/-- Outcome of the external `fetch_html` collaborator: the response body
on success, a `requests.RequestException` message, or any other
exception raised while fetching. -/
inductive FetchOutcome where
  | success (html : List Char)
  | requestError (msg : String)
  | otherFailure (msg : String)
deriving DecidableEq

/-- The `WatchResult` dataclass (main.py lines 22-26). -/
structure WatchResult where
  value : Option Int
  available : Option Bool
  error : Option String
deriving DecidableEq

/-- Python `str(x)` of an optional string, as used in the
`Unsupported extract type` message. -/
def pyShowOpt : Option String → String
  | none => "None"
  | some s => s

/-- `get_watch_result` (main.py lines 116-136).  The fetch outcome is a
parameter standing for the external HTTP call; every exception of the
pipeline is caught, so the embedding is a total function into
`WatchResult`.  Accessing a missing dict key (`watch["url"]`,
`cond["op"]`, `cond["value"]`) and a failing `int(...)` conversion raise
exceptions that the generic handler renders with the
`"Unexpected error: "` prefix; the detail text after the prefix is
modelled as a fixed string. -/
def get_watch_result (w : WatchCfg) (fetch : FetchOutcome) : WatchResult :=
  match w.url with
  | none => ⟨none, none, some "Unexpected error: KeyError url"⟩
  | some _ =>
    match fetch with
    | .requestError msg => ⟨none, none, some ("Request error: " ++ msg)⟩
    | .otherFailure msg => ⟨none, none, some ("Unexpected error: " ++ msg)⟩
    | .success html =>
      let ex := w.extract.getD ⟨none, none⟩
      if ex.etype = some "keyword_number" then
        let keyword := ex.keyword.getD "Availability no"
        match extract_keyword_number html keyword.toList with
        | none => ⟨none, none, some "Could not extract availability number"⟩
        | some v =>
          match w.condition with
          | none =>
            match eval_condition (v : Int) ">" 0 with
            | .ok avail => ⟨some (v : Int), some avail, none⟩
            | .error e => ⟨none, none, some ("Unexpected error: " ++ e)⟩
          | some cond =>
            match cond.op with
            | none => ⟨none, none, some "Unexpected error: KeyError op"⟩
            | some op =>
              match cond.value with
              | none => ⟨none, none, some "Unexpected error: KeyError value"⟩
              | some none =>
                ⟨none, none, some "Unexpected error: invalid literal for int with base 10"⟩
              | some (some rhs) =>
                match eval_condition (v : Int) op rhs with
                | .ok avail => ⟨some (v : Int), some avail, none⟩
                | .error e => ⟨none, none, some ("Unexpected error: " ++ e)⟩
      else
        ⟨none, none, some ("Unsupported extract type: " ++ pyShowOpt ex.etype)⟩

/-- One persisted state entry (`state[wid]`): a dict whose `value`,
`available` and `error` keys may be absent (`none`); the three always
rewritten keys are plain fields. -/
structure StateEntry where
  last_checked_utc : String
  label : String
  url : String
  value : Option Int
  available : Option Bool
  error : Option String
deriving DecidableEq

/-- The persisted state: watch id keyed entries. -/
abbrev StateMap := List (String × StateEntry)

/-- Python dict assignment `state[wid] = e` on the association list. -/
def setState : StateMap → String → StateEntry → StateMap
  | [], k, e => [(k, e)]
  | (k0, e0) :: rest, k, e =>
    if k0 = k then (k, e) :: rest else (k0, e0) :: setState rest k e

/-- `state.get(wid, {}).get("available", None)`. -/
def prevAvailable (state : StateMap) (wid : String) : Option Bool :=
  (List.lookup wid state).bind StateEntry.available

/-- `state.get(wid, {}).get("value", None)`. -/
def prevValue (state : StateMap) (wid : String) : Option Int :=
  (List.lookup wid state).bind StateEntry.value

/-- Python falsiness of an optional string (`not wid`): absent or empty. -/
def pyFalsyStr : Option String → Bool
  | none => true
  | some s => s = ""

/-- Python truthiness of `res.error`: present and nonempty. -/
def pyTruthyErr : Option String → Bool
  | none => false
  | some s => s ≠ ""

/-- `label = w.get("label", wid or "Unnamed watch")` (main.py line 209). -/
def labelOf (w : WatchCfg) : String :=
  match w.label with
  | some s => s
  | none =>
    match w.id with
    | some i => if i = "" then "Unnamed watch" else i
    | none => "Unnamed watch"

/-- Python `str.lower()` (ASCII range), character by character. -/
def pyLower (s : String) : String :=
  ⟨s.data.map Char.toLower⟩

/-- `(w.get("mode") or "once").lower()` (main.py line 261). -/
def effectiveMode (w : WatchCfg) : String :=
  pyLower
    (match w.mode with
     | some s => if s = "" then "once" else s
     | none => "once")

/-- `prev_available is False or prev_available is None`. -/
def prevNotTrue : Option Bool → Bool
  | some true => false
  | _ => true

/-- `res.available is True`. -/
def isSomeTrue : Option Bool → Bool
  | some true => true
  | _ => false

/-- Observable outcome of processing one watch inside the `main` loop:
the state map afterwards, the two dirty flags, whether the fetch was
attempted, whether the transition trigger fired, whether a notification
was dispatched (trigger fired with `GITHUB_REPOSITORY` set), and the
watch object (whose `enabled` may have been flipped). -/
structure StepResult where
  state : StateMap
  stateChanged : Bool
  watchlistChanged : Bool
  fetchAttempted : Bool
  triggered : Bool
  notified : Bool
  watch : WatchCfg
deriving DecidableEq

/-- The body of the `main` loop after the enabled/validity guards
(main.py lines 216-272), with the evaluation result, the timestamp and
the presence of `GITHUB_REPOSITORY` as parameters. -/
def processActive (state : StateMap) (w : WatchCfg) (res : WatchResult)
    (now : String) (repoSet : Bool) : StepResult :=
  let wid := w.id.getD ""
  let url := w.url.getD ""
  let prev := List.lookup wid state
  let pa := prev.bind StateEntry.available
  let base0 := prev.getD ⟨"", "", "", none, none, none⟩
  let base : StateEntry :=
    { base0 with last_checked_utc := now, label := labelOf w, url := url }
  if pyTruthyErr res.error then
    { state := setState state wid { base with error := res.error },
      stateChanged := true, watchlistChanged := false, fetchAttempted := true,
      triggered := false, notified := false, watch := w }
  else
    let entry : StateEntry :=
      { base with value := res.value, available := res.available, error := none }
    let st1 := setState state wid entry
    let trig := prevNotTrue pa && isSomeTrue res.available
    if trig then
      if effectiveMode w = "once" then
        { state := st1, stateChanged := true, watchlistChanged := true,
          fetchAttempted := true, triggered := true, notified := repoSet,
          watch := { w with enabled := some false } }
      else
        { state := st1, stateChanged := true, watchlistChanged := false,
          fetchAttempted := true, triggered := true, notified := repoSet,
          watch := w }
    else
      { state := st1, stateChanged := true, watchlistChanged := false,
        fetchAttempted := true, triggered := false, notified := false,
        watch := w }

/-- The per-watch outcome when the watch is skipped: nothing observable
happens. -/
def skipStep (state : StateMap) (w : WatchCfg) : StepResult :=
  { state := state, stateChanged := false, watchlistChanged := false,
    fetchAttempted := false, triggered := false, notified := false, watch := w }

/-- One iteration of the `main` loop (main.py lines 204-272): skip when
`enabled` is falsy or the id/url is missing or empty, otherwise evaluate
the watch and run the transition/trigger logic. -/
def processWatch (state : StateMap) (w : WatchCfg) (fetch : FetchOutcome)
    (now : String) (repoSet : Bool) : StepResult :=
  if w.enabled.getD true = false then skipStep state w
  else if pyFalsyStr w.id || pyFalsyStr w.url then skipStep state w
  else processActive state w (get_watch_result w fetch) now repoSet

/-- The probe the line scan applies to one line, phrased with an
`Option`-valued function so the scan can be related to `List.findSome?`. -/
def lineProbe (kw line : List Char) : Option Nat :=
  if ciContains kw line then searchSuffixes readNum line else none

lemma searchSuffixes_eq_some (f : List Char → Option Nat) (N : Nat) :
    ∀ s : List Char, (∀ t ∈ suffixes s, f t = none ∨ f t = some N) →
    (∃ t ∈ suffixes s, f t = some N) → searchSuffixes f s = some N := by
  intro s
  induction s with
  | nil =>
    intro _ hex
    obtain ⟨t, ht, hft⟩ := hex
    simp [suffixes] at ht
    subst ht
    simpa [searchSuffixes] using hft
  | cons c rest ih =>
    intro hall hex
    cases h : f (c :: rest) with
    | some v =>
      have := hall (c :: rest) (by simp [suffixes])
      rcases this with h0 | h0
      · rw [h] at h0; exact absurd h0 (by simp)
      · rw [h] at h0
        simp [searchSuffixes, h, h0]
    | none =>
      have hall2 : ∀ t ∈ suffixes rest, f t = none ∨ f t = some N := by
        intro t ht
        exact hall t (by simp [suffixes, ht])
      have hex2 : ∃ t ∈ suffixes rest, f t = some N := by
        obtain ⟨t, ht, hft⟩ := hex
        simp [suffixes] at ht
        rcases ht with rfl | ht
        · rw [h] at hft; exact absurd hft (by simp)
        · exact ⟨t, ht, hft⟩
      simp [searchSuffixes, h]
      exact ih hall2 hex2

lemma searchSuffixes_eq_none (f : List Char → Option Nat) :
    ∀ s : List Char, (∀ t ∈ suffixes s, f t = none) →
    searchSuffixes f s = none := by
  intro s
  induction s with
  | nil =>
    intro hall
    simpa [searchSuffixes] using hall [] (by simp [suffixes])
  | cons c rest ih =>
    intro hall
    have h := hall (c :: rest) (by simp [suffixes])
    simp [searchSuffixes, h]
    exact ih (fun t ht => hall t (by simp [suffixes, ht]))

lemma lineScan_eq_findSome (kw : List Char) :
    ∀ lines : List (List Char), lineScan kw lines = lines.findSome? (lineProbe kw) := by
  intro lines
  induction lines with
  | nil => rfl
  | cons line rest ih =>
    by_cases hc : ciContains kw line
    · cases hs : searchSuffixes readNum line with
      | some v => simp [lineScan, List.findSome?, lineProbe, hc, hs]
      | none => simp [lineScan, List.findSome?, lineProbe, hc, hs, ih]
    · simp [lineScan, List.findSome?, lineProbe, hc, ih]

lemma prevNotTrue_iff (pa : Option Bool) :
    prevNotTrue pa = true ↔ (pa = some false ∨ pa = none) := by
  cases pa with
  | none => simp [prevNotTrue]
  | some b => cases b <;> simp [prevNotTrue]

lemma isSomeTrue_iff (a : Option Bool) :
    isSomeTrue a = true ↔ a = some true := by
  cases a with
  | none => simp [isSomeTrue]
  | some b => cases b <;> simp [isSomeTrue]

lemma get_watch_result_shape (w : WatchCfg) (fetch : FetchOutcome) :
    ((get_watch_result w fetch).value.isSome = true ∧
     (get_watch_result w fetch).available.isSome = true ∧
     (get_watch_result w fetch).error = none) ∨
    ((get_watch_result w fetch).error.isSome = true ∧
     (get_watch_result w fetch).value = none ∧
     (get_watch_result w fetch).available = none) := by
  unfold get_watch_result
  dsimp only
  repeat' split
  all_goals first | (left; exact ⟨rfl, rfl, rfl⟩) | (right; exact ⟨rfl, rfl, rfl⟩)

lemma get_watch_result_error_available (w : WatchCfg) (fetch : FetchOutcome)
    (h : pyTruthyErr (get_watch_result w fetch).error = true) :
    (get_watch_result w fetch).available = none := by
  rcases get_watch_result_shape w fetch with ⟨_, _, he⟩ | ⟨_, _, ha⟩
  · rw [he] at h; simp [pyTruthyErr] at h
  · exact ha

lemma lookup_setState_self (k : String) (e : StateEntry) :
    ∀ s : StateMap, List.lookup k (setState s k e) = some e := by
  intro s
  induction s with
  | nil => simp [setState, List.lookup]
  | cons p rest ih =>
    obtain ⟨k0, e0⟩ := p
    by_cases h : k0 = k
    · simp [setState, h, List.lookup]
    · have hne : (k == k0) = false := beq_eq_false_iff_ne.mpr fun hh => h hh.symm
      simp [setState, h, List.lookup, hne, ih]

/-- C4: for every text in which the caller-supplied keyword occurs
followed by an optional colon or hash, optional whitespace, and a digit
run with value N (case-insensitively, the keyword taken literally) —
phrased as: the keyword-adjacency pattern succeeds somewhere in the
normalised text, and every position where it succeeds captures N —
`extract_keyword_number` returns N. -/
theorem c4_keyword_adjacent_extraction (text kw : List Char) (N : Nat)
    (hall : ∀ t ∈ suffixes (normalizeText text), tryKw kw t = none ∨ tryKw kw t = some N)
    (hex : ∃ t ∈ suffixes (normalizeText text), tryKw kw t = some N) :
    extract_keyword_number text kw = some N := by
  have h := searchSuffixes_eq_some (tryKw kw) N (normalizeText text) hall hex
  unfold extract_keyword_number
  simp [h]

/-- C4 witness: the spec example — the visible text of
`<div>Availability no: 1</div>` with keyword `Availability no`
extracts 1. -/
theorem c4_witness :
    extract_keyword_number "Availability no: 1".toList "Availability no".toList = some 1 :=
  c4_keyword_adjacent_extraction "Availability no: 1".toList "Availability no".toList 1
    (by decide) (by decide)

/-- C6: when the keyword-adjacency pattern matches nowhere but the fixed
literal `Availability no` pattern succeeds (capturing N at every position
where it succeeds), `extract_keyword_number` returns N regardless of the
caller-supplied keyword and without reaching the line scan. -/
theorem c6_fixed_pattern_fallback (text kw : List Char) (N : Nat)
    (hkw : ∀ t ∈ suffixes (normalizeText text), tryKw kw t = none)
    (hall : ∀ t ∈ suffixes (normalizeText text), tryAvail t = none ∨ tryAvail t = some N)
    (hex : ∃ t ∈ suffixes (normalizeText text), tryAvail t = some N) :
    extract_keyword_number text kw = some N := by
  have h1 := searchSuffixes_eq_none (tryKw kw) (normalizeText text) hkw
  have h2 := searchSuffixes_eq_some tryAvail N (normalizeText text) hall hex
  unfold extract_keyword_number
  simp [h1, h2]

/-- C6 witness: with the unrelated keyword `zzz`, the text
`Availability no: 7` still extracts 7 through the fixed fallback. -/
theorem c6_witness :
    extract_keyword_number "Availability no: 7".toList "zzz".toList = some 7 :=
  c6_fixed_pattern_fallback "Availability no: 7".toList "zzz".toList 7
    (by decide) (by decide) (by decide)

/-- C5: when neither regex strategy matches anywhere in the normalised
text, `extract_keyword_number` equals the line-by-line scan: the first
digit run of the first line that case-insensitively contains the keyword
and contains a digit run, and `none` (not an error) when no line
qualifies — stated via `List.findSome?` over the split lines. -/
theorem c5_line_scan_fallback (text kw : List Char)
    (hkw : ∀ t ∈ suffixes (normalizeText text), tryKw kw t = none)
    (hav : ∀ t ∈ suffixes (normalizeText text), tryAvail t = none) :
    extract_keyword_number text kw =
      (pySplitlines (normalizeText text)).findSome? (lineProbe kw) := by
  have h1 := searchSuffixes_eq_none (tryKw kw) (normalizeText text) hkw
  have h2 := searchSuffixes_eq_none tryAvail (normalizeText text) hav
  unfold extract_keyword_number
  simp [h1, h2, lineScan_eq_findSome]

/-- C5 witness: keyword on a line whose digits precede it (so no
adjacency match): the line scan picks the first digit run, 42. -/
theorem c5_witness :
    extract_keyword_number "42 open for chem".toList "chem".toList =
      (pySplitlines (normalizeText "42 open for chem".toList)).findSome?
        (lineProbe "chem".toList) :=
  c5_line_scan_fallback "42 open for chem".toList "chem".toList (by decide) (by decide)

/-- C7: `eval_condition` computes exactly the arithmetic comparison for
each of the six operators and fails with the unsupported-operator error
for every other operator string. -/
theorem c7_eval_condition_ops (v rhs : Int) :
    eval_condition v ">" rhs = .ok (decide (v > rhs)) ∧
    eval_condition v ">=" rhs = .ok (decide (v ≥ rhs)) ∧
    eval_condition v "==" rhs = .ok (decide (v = rhs)) ∧
    eval_condition v "!=" rhs = .ok (decide (v ≠ rhs)) ∧
    eval_condition v "<" rhs = .ok (decide (v < rhs)) ∧
    eval_condition v "<=" rhs = .ok (decide (v ≤ rhs)) ∧
    ∀ op : String, op ∉ ([">", ">=", "==", "!=", "<", "<="] : List String) →
      eval_condition v op rhs = .error ("Unsupported op: " ++ op) := by
  refine ⟨rfl, rfl, rfl, rfl, rfl, rfl, ?_⟩
  intro op hop
  simp only [List.mem_cons, List.not_mem_nil, or_false, not_or] at hop
  obtain ⟨h1, h2, h3, h4, h5, h6⟩ := hop
  simp [eval_condition, h1, h2, h3, h4, h5, h6]

/-- C7 witness: the spec examples, plus an unsupported operator. -/
theorem c7_witness :
    eval_condition 5 ">" 3 = .ok true ∧ eval_condition 3 ">" 3 = .ok false ∧
    eval_condition 3 "==" 3 = .ok true ∧
    eval_condition 3 "~" 3 = .error ("Unsupported op: " ++ "~") :=
  ⟨(c7_eval_condition_ops 5 3).1, (c7_eval_condition_ops 3 3).1,
   (c7_eval_condition_ops 3 3).2.2.1,
   (c7_eval_condition_ops 3 3).2.2.2.2.2.2 "~" (by decide)⟩

/-- C2: for every watch and every fetch outcome (success, transport
failure, or any other exception) `get_watch_result` is a total function
into `WatchResult` — no exception propagates — and the result has either
`value` and `available` set with `error` unset, or `error` set with both
others unset, never a partial mix. -/
theorem c2_result_exclusive (w : WatchCfg) (fetch : FetchOutcome) :
    ((get_watch_result w fetch).value.isSome = true ∧
     (get_watch_result w fetch).available.isSome = true ∧
     (get_watch_result w fetch).error = none) ∨
    ((get_watch_result w fetch).error.isSome = true ∧
     (get_watch_result w fetch).value = none ∧
     (get_watch_result w fetch).available = none) :=
  get_watch_result_shape w fetch

/-- C1: for every processed watch (enabled, with non-empty id and url),
the notification trigger fires iff the previously persisted `available`
is false or absent and the current result's `available` is true; in
particular it never fires on a previous true or on an error result
(whose `available` is unset). -/
theorem c1_trigger_iff (state : StateMap) (w : WatchCfg) (fetch : FetchOutcome)
    (now : String) (repoSet : Bool)
    (hen : w.enabled.getD true = true)
    (hid : pyFalsyStr w.id = false) (hurl : pyFalsyStr w.url = false) :
    (processWatch state w fetch now repoSet).triggered = true ↔
      ((prevAvailable state (w.id.getD "") = some false ∨
        prevAvailable state (w.id.getD "") = none) ∧
       (get_watch_result w fetch).available = some true) := by
  unfold processWatch
  rw [if_neg (by simp [hen]), if_neg (by simp [hid, hurl])]
  unfold processActive
  dsimp only
  by_cases herr : pyTruthyErr (get_watch_result w fetch).error = true
  · rw [if_pos herr]
    have hav := get_watch_result_error_available w fetch herr
    simp [hav]
  · rw [if_neg herr]
    by_cases htrig :
        (prevNotTrue ((List.lookup (w.id.getD "") state).bind StateEntry.available) &&
         isSomeTrue (get_watch_result w fetch).available) = true
    · rw [if_pos htrig]
      rw [Bool.and_eq_true] at htrig
      have hp := (prevNotTrue_iff _).mp htrig.1
      have hc := (isSomeTrue_iff _).mp htrig.2
      exact iff_of_true (by split <;> rfl) ⟨hp, hc⟩
    · rw [if_neg htrig]
      refine iff_of_false (by simp) ?_
      rintro ⟨hp, hc⟩
      apply htrig
      rw [Bool.and_eq_true]
      exact ⟨(prevNotTrue_iff _).mpr hp, (isSomeTrue_iff _).mpr hc⟩

/-- C1 witness: first-ever run (no previous state) with a successful
available-now result fires the trigger. -/
theorem c1_witness :
    (processWatch []
        (⟨some "w1", some "L", some "u", none, none,
          some ⟨some "keyword_number", none⟩, none⟩ : WatchCfg)
        (.success "Availability no: 5".toList) "t" true).triggered = true ↔
      ((prevAvailable [] "w1" = some false ∨ prevAvailable [] "w1" = none) ∧
       (get_watch_result
          (⟨some "w1", some "L", some "u", none, none,
            some ⟨some "keyword_number", none⟩, none⟩ : WatchCfg)
          (.success "Availability no: 5".toList)).available = some true) :=
  c1_trigger_iff []
    (⟨some "w1", some "L", some "u", none, none,
      some ⟨some "keyword_number", none⟩, none⟩ : WatchCfg)
    (.success "Availability no: 5".toList) "t" true rfl rfl rfl

lemma getD_emptyEntry_value (o : Option StateEntry) :
    (o.getD ⟨"", "", "", none, none, none⟩).value = o.bind StateEntry.value := by
  cases o <;> rfl

lemma getD_emptyEntry_available (o : Option StateEntry) :
    (o.getD ⟨"", "", "", none, none, none⟩).available = o.bind StateEntry.available := by
  cases o <;> rfl

/-- C3 counterexample: on a failure run the coordinator also rewrites the
`label` (and `url`) fields of the state entry, not only `error` and
`last_checked_utc`: with a previous entry labelled `Old` and the watch now
labelled `New`, an error run leaves the entry labelled `New`. -/
theorem c3_counterexample :
    pyTruthyErr (get_watch_result
        (⟨some "w1", some "New", some "u", none, none, none, none⟩ : WatchCfg)
        (.requestError "boom")).error = true ∧
    (List.lookup "w1"
        ([("w1", (⟨"t0", "Old", "u", some 3, some false, none⟩ : StateEntry))] : StateMap)).map
      StateEntry.label = some "Old" ∧
    (List.lookup "w1"
        (processWatch [("w1", ⟨"t0", "Old", "u", some 3, some false, none⟩)]
          (⟨some "w1", some "New", some "u", none, none, none, none⟩ : WatchCfg)
          (.requestError "boom") "t1" true).state).map
      StateEntry.label = some "New" := by
  refine ⟨rfl, rfl, ?_⟩
  decide

/-- C3 amended: when a processed watch's evaluation yields an error
result, the persisted entry keeps its previous `value` and `available`
unchanged, while `error`, `last_checked_utc`, `label` and `url` are the
fields rewritten on that failure run. -/
theorem c3_error_run_frame (state : StateMap) (w : WatchCfg) (fetch : FetchOutcome)
    (now : String) (repoSet : Bool)
    (hen : w.enabled.getD true = true)
    (hid : pyFalsyStr w.id = false) (hurl : pyFalsyStr w.url = false)
    (herr : pyTruthyErr (get_watch_result w fetch).error = true) :
    List.lookup (w.id.getD "") (processWatch state w fetch now repoSet).state =
      some { last_checked_utc := now, label := labelOf w, url := w.url.getD "",
             value := prevValue state (w.id.getD ""),
             available := prevAvailable state (w.id.getD ""),
             error := (get_watch_result w fetch).error } := by
  unfold processWatch
  rw [if_neg (by simp [hen]), if_neg (by simp [hid, hurl])]
  unfold processActive
  dsimp only
  rw [if_pos herr]
  dsimp only
  rw [lookup_setState_self]
  simp [prevValue, prevAvailable, getD_emptyEntry_value, getD_emptyEntry_available]

/-- C3 witness: a concrete failure run over an existing entry keeps the
previous value and available while stamping the new label, url,
timestamp and error. -/
theorem c3_witness :
    List.lookup "w1"
      (processWatch [("w1", ⟨"t0", "Old", "u", some 3, some false, none⟩)]
        (⟨some "w1", some "New", some "u2", none, none, none, none⟩ : WatchCfg)
        (.requestError "boom") "t1" true).state =
      some { last_checked_utc := "t1",
             label := labelOf (⟨some "w1", some "New", some "u2", none, none, none, none⟩ : WatchCfg),
             url := "u2",
             value := prevValue [("w1", ⟨"t0", "Old", "u", some 3, some false, none⟩)] "w1",
             available := prevAvailable [("w1", ⟨"t0", "Old", "u", some 3, some false, none⟩)] "w1",
             error := (get_watch_result
               (⟨some "w1", some "New", some "u2", none, none, none, none⟩ : WatchCfg)
               (.requestError "boom")).error } :=
  c3_error_run_frame [("w1", ⟨"t0", "Old", "u", some 3, some false, none⟩)]
    (⟨some "w1", some "New", some "u2", none, none, none, none⟩ : WatchCfg)
    (.requestError "boom") "t1" true rfl rfl rfl rfl

/-- C8: the watch-list is marked changed in a step exactly when the
trigger fired and the watch's effective mode (defaulting to `once`,
compared case-insensitively) is `once`; in that case, and only through
that path, the watch's `enabled` is flipped to false. -/
theorem c8_once_auto_disable (state : StateMap) (w : WatchCfg) (fetch : FetchOutcome)
    (now : String) (repoSet : Bool) :
    ((processWatch state w fetch now repoSet).watchlistChanged = true ↔
      ((processWatch state w fetch now repoSet).triggered = true ∧
       effectiveMode w = "once")) ∧
    ((processWatch state w fetch now repoSet).triggered = true →
      effectiveMode w = "once" →
      (processWatch state w fetch now repoSet).watch.enabled = some false) := by
  unfold processWatch processActive
  dsimp only
  repeat' split
  all_goals simp_all [skipStep]

/-- C8 witness: a triggering watch with no `mode` key (so the `once`
default applies) ends the step with `enabled` flipped to false. -/
theorem c8_witness :
    (processWatch []
        (⟨some "w1", some "L", some "u", none, none,
          some ⟨some "keyword_number", none⟩, none⟩ : WatchCfg)
        (.success "Availability no: 5".toList) "t" true).watch.enabled = some false :=
  (c8_once_auto_disable []
      (⟨some "w1", some "L", some "u", none, none,
        some ⟨some "keyword_number", none⟩, none⟩ : WatchCfg)
      (.success "Availability no: 5".toList) "t" true).2 (by decide) (by decide)

/-- C9: a watch whose `enabled` field is false is skipped entirely: the
state map is untouched, no fetch is attempted, nothing is marked changed
and no trigger, notification or auto-disable happens. -/
theorem c9_disabled_skipped (state : StateMap) (w : WatchCfg) (fetch : FetchOutcome)
    (now : String) (repoSet : Bool) (h : w.enabled = some false) :
    processWatch state w fetch now repoSet = skipStep state w := by
  simp [processWatch, h]

/-- C9 witness: a concrete disabled watch is skipped. -/
theorem c9_witness :
    processWatch [] (⟨some "w1", none, some "u", some false, none, none, none⟩ : WatchCfg)
      (.success []) "t" true =
      skipStep [] (⟨some "w1", none, some "u", some false, none, none, none⟩ : WatchCfg) :=
  c9_disabled_skipped [] (⟨some "w1", none, some "u", some false, none, none, none⟩ : WatchCfg)
    (.success []) "t" true rfl

/-- C10: with a successful fetch and extraction, a present `condition`
object missing its `op` key, missing its `value` key, or with a
non-integer-convertible value makes `get_watch_result` yield an
`Unexpected error: ...` result instead of applying the default
condition; the default (op `>`, threshold 0) is applied exactly when the
`condition` key is absent. -/
theorem c10_condition_errors (w : WatchCfg) (html : List Char) (u : String)
    (ex : ExtractCfg) (v : Nat) (cval : Option (Option Int)) (cop : String)
    (hu : w.url = some u) (hex : w.extract = some ex)
    (ht : ex.etype = some "keyword_number")
    (hv : extract_keyword_number html (ex.keyword.getD "Availability no").toList = some v) :
    get_watch_result { w with condition := some ⟨none, cval⟩ } (.success html) =
      ⟨none, none, some "Unexpected error: KeyError op"⟩ ∧
    get_watch_result { w with condition := some ⟨some cop, none⟩ } (.success html) =
      ⟨none, none, some "Unexpected error: KeyError value"⟩ ∧
    get_watch_result { w with condition := some ⟨some cop, some none⟩ } (.success html) =
      ⟨none, none, some "Unexpected error: invalid literal for int with base 10"⟩ ∧
    get_watch_result { w with condition := none } (.success html) =
      ⟨some (v : Int), some (decide ((v : Int) > 0)), none⟩ := by
  have hv2 : extract_keyword_number html (ex.keyword.getD "Availability no").data = some v := hv
  refine ⟨?_, ?_, ?_, ?_⟩ <;>
  · unfold get_watch_result
    simp [hu, hex, ht, hv2, eval_condition]

/-- C10 witness: concrete watches exercising all four condition shapes
over the text `Availability no: 2`. -/
theorem c10_witness :
    get_watch_result
        (⟨some "w1", none, some "u", none, none,
          some ⟨some "keyword_number", none⟩, some ⟨none, none⟩⟩ : WatchCfg)
        (.success "Availability no: 2".toList) =
      ⟨none, none, some "Unexpected error: KeyError op"⟩ ∧
    get_watch_result
        (⟨some "w1", none, some "u", none, none,
          some ⟨some "keyword_number", none⟩, some ⟨some ">", none⟩⟩ : WatchCfg)
        (.success "Availability no: 2".toList) =
      ⟨none, none, some "Unexpected error: KeyError value"⟩ ∧
    get_watch_result
        (⟨some "w1", none, some "u", none, none,
          some ⟨some "keyword_number", none⟩, some ⟨some ">", some none⟩⟩ : WatchCfg)
        (.success "Availability no: 2".toList) =
      ⟨none, none, some "Unexpected error: invalid literal for int with base 10"⟩ ∧
    get_watch_result
        (⟨some "w1", none, some "u", none, none,
          some ⟨some "keyword_number", none⟩, none⟩ : WatchCfg)
        (.success "Availability no: 2".toList) =
      ⟨some 2, some true, none⟩ :=
  c10_condition_errors
    (⟨some "w1", none, some "u", none, none,
      some ⟨some "keyword_number", none⟩, none⟩ : WatchCfg)
    "Availability no: 2".toList "u" ⟨some "keyword_number", none⟩ 2 none ">"
    rfl rfl rfl (by decide)
